import Mathlib

/-!
Verification of the FrontendX-Backend report-summarization pipeline.

This file gives a shallow embedding of the Python sources
(`app/services/processing_service.py`, `app/services/llm_service.py`,
`app/main.py`) and proves properties of the embedded code.

Python values (the JSON-shaped data flowing through the pipeline) are
modelled by the inductive type `J`.  Python numbers (int and float) are
modelled by unnormalized fractions over `Int`/`Nat` (`PyNum`); report
arithmetic (score × 100, transferSize / 1024, comparisons with 0,
rounding for the `.0f` format) is exact on such fractions.  Fallible
Python operations (attribute access on non-dicts, numeric formatting of
non-numbers, subscripts, `int()` conversion, pydantic validation,
`HTTPException`) are modelled in the `Except PyErr` monad, with one
error constructor per Python exception class that the embedded code can
raise.
-/

namespace FrontendX

/-- A Python exception kind, as raised by the embedded code. -/
inductive PyErr where
  | typeError
  | attributeError
  | keyError
  | indexError
  | valueError
  | validationError
  | httpException (status : Nat)
deriving DecidableEq

/-- A Python number: an unnormalized fraction `n / d` with `d` positive by
construction at every use site.  Python ints are fractions with `d = 1`;
report floats (scores, millisecond totals) are exact decimal fractions. -/
structure PyNum where
  n : Int
  d : Nat
deriving DecidableEq

/-- A Python/JSON value: `None`, bool, number, string, list or dict.
Dicts are insertion-ordered association lists, as in Python. -/
inductive J where
  | null
  | b (x : Bool)
  | num (x : PyNum)
  | s (x : String)
  | l (xs : List J)
  | d (kvs : List (String × J))

/-- A Python integer literal as a `J` value. -/
def J.i (k : Int) : J := .num ⟨k, 1⟩

/-- First value bound to `key` in an association list (Python dict lookup). -/
def dictGet : List (String × J) → String → Option J
  | [], _ => none
  | (k, v) :: rest, key => if k = key then some v else dictGet rest key

/-- Python `dict.get(key, default)` on a known dict. -/
def dictGetD (kvs : List (String × J)) (key : String) (dflt : J) : J :=
  (dictGet kvs key).getD dflt

/-- Python `x[key]` access on an arbitrary value and a *total* default:
returns `dflt` whenever `x` is not a dict or lacks the key.  Used for the
spec-side view functions, never raising. -/
def jGetD (v : J) (key : String) (dflt : J) : J :=
  match v with
  | .d kvs => dictGetD kvs key dflt
  | _ => dflt

/-- Python `x.get(key, default)`: dict lookup with default, raising
`AttributeError` when the receiver is not a dict. -/
def pyGet (v : J) (key : String) (dflt : J) : Except PyErr J :=
  match v with
  | .d kvs => .ok (dictGetD kvs key dflt)
  | _ => .error .attributeError

/-- Python `x[key]` with a string key: `KeyError` on a missing dict key,
`TypeError` when the receiver is not subscriptable by a string. -/
def pySubscriptS (v : J) (key : String) : Except PyErr J :=
  match v with
  | .d kvs =>
      match dictGet kvs key with
      | some x => .ok x
      | none => .error .keyError
  | _ => .error .typeError

/-- Python `x[0]`: head of a list or string, `IndexError` when empty,
`KeyError` on a dict (integer key absent), `TypeError` otherwise. -/
def pyIndex0 : J → Except PyErr J
  | .l [] => .error .indexError
  | .l (x :: _) => .ok x
  | .s x =>
      match x.data with
      | [] => .error .indexError
      | c :: _ => .ok (.s (String.mk [c]))
  | .d _ => .error .keyError
  | _ => .error .typeError

/-- Python `dict.items()`: the ordered key/value pairs, `AttributeError`
when the receiver is not a dict. -/
def pyItems (v : J) : Except PyErr (List (String × J)) :=
  match v with
  | .d kvs => .ok kvs
  | _ => .error .attributeError

/-- Python truthiness of a value. -/
def pyTruthy : J → Bool
  | .null => false
  | .b x => x
  | .num x => decide (x.n ≠ 0)
  | .s x => decide (x ≠ "")
  | .l xs => !xs.isEmpty
  | .d kvs => !kvs.isEmpty

/-- Python `v == lit` against a string literal: true exactly for the equal
string (no other value compares equal to a string). -/
def pyEqStr (v : J) (lit : String) : Bool :=
  match v with
  | .s x => decide (x = lit)
  | _ => false

/-- Python `for x in v`: lists iterate elements, strings iterate one-char
strings, dicts iterate keys; other values raise `TypeError`. -/
def pyIter : J → Except PyErr (List J)
  | .l xs => .ok xs
  | .s x => .ok (x.data.map (fun c => .s (String.mk [c])))
  | .d kvs => .ok (kvs.map (fun p => .s p.1))
  | _ => .error .typeError

/-- Total counterpart of `pyIter` for spec-side views (non-iterables give
the empty list). -/
def jIterTotal : J → List J
  | .l xs => xs
  | .s x => x.data.map (fun c => .s (String.mk [c]))
  | .d kvs => kvs.map (fun p => .s p.1)
  | _ => []

/-- Floor of a `PyNum`. -/
def PyNum.floor (x : PyNum) : Int := Int.fdiv x.n x.d

/-- Round a `PyNum` to the nearest integer, ties to even, as Python's
`format(x, '.0f')` does on the exact value. -/
def PyNum.round0 (x : PyNum) : Int :=
  let fl := x.floor
  let rem := x.n - fl * x.d
  if 2 * rem < (x.d : Int) then fl
  else if (x.d : Int) < 2 * rem then fl + 1
  else if fl % 2 = 0 then fl else fl + 1

/-- Rendering of Python `f"{x:.0f}"` for an exact fraction. -/
def fmt0 (x : PyNum) : String := toString x.round0

/-- Python `f"{v:.0f}"`: numbers and bools format as integers, every other
value raises `TypeError`. -/
def pyFmt0 : J → Except PyErr String
  | .num x => .ok (fmt0 x)
  | .b x => .ok (if x then "1" else "0")
  | _ => .error .typeError

/-- String repetition, Python `s * n`. -/
def strRepeat (x : String) (m : Nat) : String := String.join (List.replicate m x)

/-- Python `v * m` with a non-negative int literal `m`: numbers multiply,
bools coerce to 0/1, strings and lists repeat; other values raise
`TypeError`. -/
def pyMul (v : J) (m : Nat) : Except PyErr J :=
  match v with
  | .num x => .ok (.num ⟨x.n * m, x.d⟩)
  | .b x => .ok (.num ⟨if x then (m : Int) else 0, 1⟩)
  | .s x => .ok (.s (strRepeat x m))
  | .l xs => .ok (.l (List.flatten (List.replicate m xs)))
  | _ => .error .typeError

/-- Python `v / m` by a positive int literal (true division, exact). -/
def pyDivNum (v : J) (m : Nat) : Except PyErr PyNum :=
  match v with
  | .num x => .ok ⟨x.n, x.d * m⟩
  | .b x => .ok ⟨if x then 1 else 0, m⟩
  | _ => .error .typeError

/-- Total counterpart of `pyDivNum` for spec-side views. -/
def jDivTotal (v : J) (m : Nat) : PyNum :=
  match v with
  | .num x => ⟨x.n, x.d * m⟩
  | .b x => ⟨if x then 1 else 0, m⟩
  | _ => ⟨0, m⟩

/-- Python `v > 0`: numbers and bools compare, anything else raises
`TypeError`. -/
def pyGtZero : J → Except PyErr Bool
  | .num x => .ok (decide (0 < x.n))
  | .b x => .ok x
  | _ => .error .typeError

/-- Total counterpart of `pyGtZero` for spec-side views. -/
def numGtZero : J → Bool
  | .num x => decide (0 < x.n)
  | .b x => x
  | _ => false

/-- Decimal digit value of a character, if any. -/
def digitVal (c : Char) : Option Nat :=
  if c.isDigit then some (c.toNat - '0'.toNat) else none

/-- Parse a non-empty all-digit character list as a natural number. -/
def parseNatChars (cs : List Char) : Option Nat :=
  if cs.isEmpty then none
  else
    cs.foldl
      (fun acc c =>
        match acc, digitVal c with
        | some m, some dg => some (m * 10 + dg)
        | _, _ => none)
      (some 0)

/-- Parse a Python decimal integer literal (optional leading minus). -/
def parseIntStr (x : String) : Option Int :=
  match x.data with
  | '-' :: rest => (parseNatChars rest).map (fun m => -(m : Int))
  | cs => (parseNatChars cs).map (fun m => (m : Int))

/-- Python `int(v)`: truncation toward zero for numbers, 0/1 for bools,
decimal parse for strings (`ValueError` on a malformed string),
`TypeError` otherwise. -/
def pyInt : J → Except PyErr Int
  | .num x => .ok (Int.tdiv x.n x.d)
  | .b x => .ok (if x then 1 else 0)
  | .s x =>
      match parseIntStr x with
      | some k => .ok k
      | none => .error .valueError
  | _ => .error .typeError

/-- Rendering of a `PyNum` inside an f-string.  Integers render exactly as
Python does; proper fractions render as `n/d` — the embedded claims never
depend on the decimal rendering of non-integer floats. -/
def pyNumStr (x : PyNum) : String :=
  if x.d = 1 then toString x.n else toString x.n ++ "/" ++ toString x.d

mutual
/-- Python `repr(v)`, used for elements of containers inside f-strings.
Escape sequences inside reprs of strings are not modelled; no claim
depends on container rendering. -/
def pyRepr : J → String
  | .null => "None"
  | .b true => "True"
  | .b false => "False"
  | .num x => pyNumStr x
  | .s x => "\x27" ++ x ++ "\x27"
  | .l xs => "[" ++ pyReprList xs ++ "]"
  | .d kvs => "\x7b" ++ pyReprObj kvs ++ "\x7d"

/-- Comma-separated reprs of list elements. -/
def pyReprList : List J → String
  | [] => ""
  | [x] => pyRepr x
  | x :: xs => pyRepr x ++ ", " ++ pyReprList xs

/-- Comma-separated `'key': repr` pairs of dict entries. -/
def pyReprObj : List (String × J) → String
  | [] => ""
  | [(k, v)] => "\x27" ++ k ++ "\x27: " ++ pyRepr v
  | (k, v) :: kvs => "\x27" ++ k ++ "\x27: " ++ pyRepr v ++ ", " ++ pyReprObj kvs
end

/-- Python `str(v)` as used by f-string interpolation. -/
def pyStr : J → String
  | .null => "None"
  | .b true => "True"
  | .b false => "False"
  | .num x => pyNumStr x
  | .s x => x
  | .l xs => "[" ++ pyReprList xs ++ "]"
  | .d kvs => "\x7b" ++ pyReprObj kvs ++ "\x7d"

/-- Python `"\n".join(items)`. -/
def joinNl : List String → String
  | [] => ""
  | [x] => x
  | x :: xs => x ++ "\n" ++ joinNl xs

/-- Replace hyphens with spaces, Python `s.replace('-', ' ')`. -/
def hyphenToSpace (x : String) : String :=
  String.mk (x.data.map (fun c => if c = '-' then ' ' else c))

/-- Python `s.title()`: the first character of each alphabetic run is
uppercased, subsequent letters are lowercased. -/
def pyTitleCase (x : String) : String :=
  String.mk
    ((x.data.foldl
        (fun (st : List Char × Bool) c =>
          (st.1 ++ [if st.2 then c.toLower else c.toUpper], c.isAlpha))
        ([], false)).1)

/-- Humanized form of a metric id: hyphens to spaces, then title case. -/
def humanizeId (mid : String) : String := pyTitleCase (hyphenToSpace mid)

/-- Whether a value is a Python dict. -/
def isDictJ : J → Bool
  | .d _ => true
  | _ => false

/-!
Embedding of `app/services/processing_service.py` and `app/models.py`.
-/

/-- The pydantic `Metric` model of `app/models.py`: both fields are `str`. -/
structure Metric where
  title : String
  value : String
deriving DecidableEq

/-- Construction `Metric(title=..., value=...)`: pydantic v2 validates that
both arguments are strings and raises a validation error otherwise. -/
def mkMetric (t v : J) : Except PyErr Metric :=
  match t, v with
  | .s t', .s v' => .ok ⟨t', v'⟩
  | _, _ => .error .validationError

/-- The `metrics_to_extract` list of `extract_key_metrics` (source order). -/
def metrics_to_extract : List String :=
  ["first-contentful-paint", "speed-index", "largest-contentful-paint",
   "interactive", "total-blocking-time", "cumulative-layout-shift"]

/-- The per-id loop body of `extract_key_metrics`: look up the audit with
default `{}`, then `title` defaulting to the humanized id and
`displayValue` defaulting to `"N/A"`, and build a `Metric`. -/
def keyMetricsLoop (audits : J) : List String → Except PyErr (List Metric)
  | [] => .ok []
  | mid :: rest => do
      let metric_data ← pyGet audits mid (.d [])
      let t ← pyGet metric_data "title" (.s (humanizeId mid))
      let v ← pyGet metric_data "displayValue" (.s "N/A")
      let m ← mkMetric t v
      let tail ← keyMetricsLoop audits rest
      pure (m :: tail)

/-- Embedding of `extract_key_metrics(data)` from `processing_service.py` lines 5-31. -/
def extract_key_metrics (data : J) : Except PyErr (List Metric) := do
  let lighthouseResult ← pyGet data "lighthouseResult" (.d [])
  let audits ← pyGet lighthouseResult "audits" (.d [])
  keyMetricsLoop audits metrics_to_extract

/-- One entry appended to `extracted_info["opportunities"]`.  The `savings`
field holds the raw `displayValue` (default `""`); `items` holds the
rendered per-item lines. -/
structure Opportunity where
  title : J
  description : J
  savings : J
  items : List String

/-- The value built by `extract_info_for_llm` for a report with a truthy
`lighthouseResult`: the `summary` dict carries at most the
`performance_score` key, `metrics` holds `(title, displayValue)` raw
values, and the `diagnostics` dict carries at most the two optional
rendered strings. -/
structure ExtractedInfo where
  performance_score : Option J
  metrics : List (J × J)
  opportunities : List Opportunity
  critical_request_chains : Option String
  resource_summary : Option String

/-- The `metric_ids` list of `extract_info_for_llm` (source lines 64-71).
The source omits the comma between the last two string literals, so
Python concatenates them into the single id `"speed-indexinteractive"`,
leaving five ids. -/
def metric_ids : List String :=
  ["largest-contentful-paint",
   "total-blocking-time",
   "cumulative-layout-shift",
   "first-contentful-paint",
   "speed-index" ++ "interactive"]

/-- Step 1 of `extract_info_for_llm`: the overall performance score,
`categories.performance.score * 100` when the score is not `None`. -/
def scorePart (lighthouseResult : J) : Except PyErr (Option J) := do
  let cats ← pyGet lighthouseResult "categories" (.d [])
  let performance_category ← pyGet cats "performance" (.d [])
  let score ← pyGet performance_category "score" .null
  match score with
  | .null => pure none
  | sc => do
      let v ← pyMul sc 100
      pure (some v)

/-- The body of step 2 of `extract_info_for_llm` for one looked-up audit:
a truthy audit contributes its raw `(title, displayValue)` pair. -/
def metricEntry (metric_audit : J) : Except PyErr (List (J × J)) :=
  if pyTruthy metric_audit then do
    let t ← pyGet metric_audit "title" .null
    let v ← pyGet metric_audit "displayValue" .null
    pure [(t, v)]
  else pure []

/-- Step 2 of `extract_info_for_llm`: for each id of `metric_ids`, append
the raw `(title, displayValue)` pair when the audit is truthy. -/
def metricsPart (audits : J) : List String → Except PyErr (List (J × J))
  | [] => .ok []
  | mid :: rest => do
      let metric_audit ← pyGet audits mid .null
      let hd ← metricEntry metric_audit
      let tl ← metricsPart audits rest
      pure (hd ++ tl)

/-- The qualification test of source line 84:
`details.get("type") == "opportunity" and
(details.get("overallSavingsMs", 0) > 0 or details.get("items", []))`,
with Python's left-to-right short-circuit evaluation. -/
def oppQual (details : J) : Except PyErr Bool := do
  let ty ← pyGet details "type" .null
  if pyEqStr ty "opportunity" then do
    let sav ← pyGet details "overallSavingsMs" (J.i 0)
    let gt ← pyGtZero sav
    if gt then pure true
    else do
      let its ← pyGet details "items" (.l [])
      pure (pyTruthy its)
  else pure false

/-- The per-item rendering of source lines 93-97: only the audit ids
`bootup-time` and `image-delivery-insight` contribute lines. -/
def oppItemLine (audit_id : String) (item : J) : Except PyErr (List String) :=
  if audit_id = "bootup-time" then do
    let url ← pyGet item "url" .null
    let tot ← pyGet item "total" .null
    let ts ← pyFmt0 tot
    pure ["  - Script: " ++ pyStr url ++ ", CPU Time: " ++ ts ++ "ms"]
  else if audit_id = "image-delivery-insight" then do
    let sub ← pyGet item "subItems" .null
    if pyTruthy sub then do
      let sub' ← pySubscriptS item "subItems"
      let inner ← pySubscriptS sub' "items"
      let first ← pyIndex0 inner
      let reason ← pyGet first "reason" (.s "Optimization needed")
      let url ← pyGet item "url" .null
      pure ["  - Image: " ++ pyStr url ++ ", Reason: " ++ pyStr reason]
    else pure []
  else pure []

/-- The item loop of source lines 92-97. -/
def oppItemsLoop (audit_id : String) : List J → Except PyErr (List String)
  | [] => .ok []
  | item :: rest => do
      let hd ← oppItemLine audit_id item
      let tl ← oppItemsLoop audit_id rest
      pure (hd ++ tl)

/-- The opportunity built for one audit when the qualification test came
out `q` (source lines 85-98): a qualifying audit contributes one record
with its rendered item lines, any other audit contributes nothing. -/
def oppBuild (audit_id : String) (audit details : J) (q : Bool) :
    Except PyErr (List Opportunity) :=
  if q then do
    let title ← pyGet audit "title" .null
    let description ← pyGet audit "description" .null
    let savings ← pyGet audit "displayValue" (.s "")
    let itemsJ ← pyGet details "items" (.l [])
    let items ← pyIter itemsJ
    let lines ← oppItemsLoop audit_id items
    pure [Opportunity.mk title description savings lines]
  else pure []

/-- Step 3 of `extract_info_for_llm` (source lines 81-98): enumerate the
audits in report order and collect qualifying opportunities. -/
def oppsPart : List (String × J) → Except PyErr (List Opportunity)
  | [] => .ok []
  | (audit_id, audit) :: rest => do
      let details ← pyGet audit "details" (.d [])
      let q ← oppQual details
      let hd ← oppBuild audit_id audit details q
      let tl ← oppsPart rest
      pure (hd ++ tl)

/-- Critical-request-chains diagnostic of source lines 102-109. -/
def crcPart (audits : J) : Except PyErr (Option String) := do
  let crc_audit ← pyGet audits "critical-request-chains" (.d [])
  if pyTruthy crc_audit then do
    let det ← pyGet crc_audit "details" .null
    if pyTruthy det then do
      let det' ← pySubscriptS crc_audit "details"
      let longest_chain ← pyGet det' "longestChain" (.d [])
      if pyTruthy longest_chain then do
        let len ← pyGet longest_chain "length" .null
        let dur ← pyGet longest_chain "duration" .null
        let ds ← pyFmt0 dur
        pure (some ("Longest chain: " ++ pyStr len ++ " requests, taking " ++
          ds ++ "ms."))
      else pure none
    else pure none
  else pure none

/-- The allowed resource types of source line 116. -/
def allowedResourceTypes : List String :=
  ["total", "script", "image", "font", "third-party"]

/-- One iteration of the resource-summary loop (source lines 115-120):
items whose `resourceType` is allowed render one line. -/
def rsLine (item : J) : Except PyErr (List String) := do
  let rt ← pyGet item "resourceType" .null
  if allowedResourceTypes.any (fun t => pyEqStr rt t) then do
    let ts ← pyGet item "transferSize" (J.i 0)
    let size_kb ← pyDivNum ts 1024
    let lbl ← pyGet item "label" .null
    let rc ← pyGet item "requestCount" .null
    pure ["  - " ++ pyStr lbl ++ ": " ++ pyStr rc ++ " requests, " ++
      fmt0 size_kb ++ " KB"]
  else pure []

/-- The resource-summary item loop. -/
def rsItemsLoop : List J → Except PyErr (List String)
  | [] => .ok []
  | item :: rest => do
      let hd ← rsLine item
      let tl ← rsItemsLoop rest
      pure (hd ++ tl)

/-- The guard of source line 113:
`rs_audit and rs_audit.get("details", {}).get("items")`. -/
def rsGuard (rs_audit : J) : Except PyErr Bool :=
  if pyTruthy rs_audit then do
    let det ← pyGet rs_audit "details" (.d [])
    let its ← pyGet det "items" .null
    pure (pyTruthy its)
  else pure false

/-- Resource-summary diagnostic of source lines 112-121: when the guard
holds, the filtered item lines joined by newlines (set even when the
join is empty). -/
def rsPart (audits : J) : Except PyErr (Option String) := do
  let rs_audit ← pyGet audits "resource-summary" (.d [])
  let guard ← rsGuard rs_audit
  if guard then do
    let det' ← pySubscriptS rs_audit "details"
    let itemsJ ← pySubscriptS det' "items"
    let items ← pyIter itemsJ
    let summary_items ← rsItemsLoop items
    pure (some (joinNl summary_items))
  else pure none

/-- Embedding of `extract_info_for_llm(data)` from `processing_service.py` lines 33-123.
A non-dict input raises `TypeError`; a falsy `lighthouseResult` yields
the empty dict, modelled as `none`; otherwise the four-key structure is
built part by part in source order. -/
def extract_info_for_llm (data : J) : Except PyErr (Option ExtractedInfo) :=
  match data with
  | .d kvs =>
      let lighthouseResult := dictGetD kvs "lighthouseResult" (.d [])
      if pyTruthy lighthouseResult then do
        let audits ← pyGet lighthouseResult "audits" (.d [])
        let score ← scorePart lighthouseResult
        let metrics ← metricsPart audits metric_ids
        let auditsKvs ← pyItems audits
        let opps ← oppsPart auditsKvs
        let crc ← crcPart audits
        let rs ← rsPart audits
        pure (some ⟨score, metrics, opps, crc, rs⟩)
      else .ok none
  | _ => .error .typeError

/-- One `- title: value` core-metric line of `format_for_llm`. -/
def fmtMetricLine (m : J × J) : String :=
  "- " ++ pyStr m.1 ++ ": " ++ pyStr m.2

/-- The lines contributed by one opportunity in `format_for_llm`
(source lines 150-152).  The `savings` key is always present on an
opportunity dict, so the `'Action required'` default of the source is
never selected. -/
def fmtOppLines (o : Opportunity) : List String :=
  ("\n- " ++ pyStr o.title ++ " (" ++ pyStr o.savings ++ ")") :: o.items

/-- Embedding of `format_for_llm(extracted_data, url)` from `processing_service.py`
lines 125-165.  The empty dict (`none`) gives the fixed fallback string;
otherwise the fixed-layout sections are assembled and joined with
newlines.  Rendering the score line raises `TypeError` when the stored
score value is not a number (mirroring `f"{score:.0f}"`). -/
def format_for_llm (extracted_data : Option ExtractedInfo) (url : String) :
    Except PyErr String :=
  match extracted_data with
  | none => .ok "No performance data could be extracted."
  | some info => do
      let headerLines := ["--- Performance Summary Report for URL: " ++ url ++ " ---"]
      let scoreLines ←
        match info.performance_score with
        | none => pure ([] : List String)
        | some .null => pure ([] : List String)
        | some sc => do
            let scs ← pyFmt0 sc
            pure ["Overall Score: " ++ scs ++ "/100"]
      let metricLines := ["\n--- Core Metrics ---"] ++ info.metrics.map fmtMetricLine
      let oppLines := ["\n--- Top Opportunities for Improvement ---"] ++
        (if info.opportunities.isEmpty then
          ["No significant opportunities were identified."]
        else (info.opportunities.map fmtOppLines).flatten)
      let diagLines := ["\n--- Key Diagnostics ---"] ++
        (match info.critical_request_chains, info.resource_summary with
         | none, none => ["No key diagnostics available."]
         | c?, r? =>
            (match c? with
             | some c => ["- Critical Request Chains: " ++ c]
             | none => []) ++
            (match r? with
             | some r => ["- Resource Breakdown:\n" ++ r]
             | none => []))
      pure (joinNl (headerLines ++ scoreLines ++ metricLines ++ oppLines ++ diagLines))

/-!
Embedding of `app/main.py` and the prompt-assembly part of
`app/services/llm_service.py`.  The two outbound collaborators (the
PageSpeed provider and the Groq model) are external network services;
their outcomes enter the embedded endpoints as `Except` parameters, and
"issuing a call to the model" is modelled by returning the exact
argument record the source passes to the collaborator.
-/

/-- The pydantic `ChatMessage` model: a role (`"user"` or `"assistant"` by
the `Literal` annotation) and a content string. -/
structure ChatMessage where
  role : String
  content : String

/-- A LangChain message as built by `get_llm_stream`: `HumanMessage` or
`AIMessage` with a content string. -/
inductive LCMessage where
  | human (content : String)
  | ai (content : String)
deriving DecidableEq

/-- The conversion loop of `llm_service.py` lines 76-81: user turns become
`HumanMessage`, assistant turns become `AIMessage`, anything else is
skipped. -/
def convertHistory : List ChatMessage → List LCMessage
  | [] => []
  | m :: rest =>
      (if m.role = "user" then [LCMessage.human m.content]
       else if m.role = "assistant" then [LCMessage.ai m.content]
       else []) ++ convertHistory rest

/-- The argument record passed to `chain.astream` (history, query and
report summary): the call issued to the Language Model Provider. -/
structure LLMCall where
  history : List LCMessage
  query : String
  report_summary : String
deriving DecidableEq

/-- The module-level `AppState` of `app/main.py`: the single report /
summary slot, both starting empty. -/
structure AppState where
  full_report : Option J
  llm_summary : Option String

/-- Python truthiness of the optional `llm_summary` slot: `None` and the
empty string are falsy. -/
def optStrTruthy : Option String → Bool
  | none => false
  | some x => decide (x ≠ "")

/-- Embedding of `chat_with_llm` from `main.py` lines 63-76: a falsy `llm_summary`
raises `HTTPException(400)` before any model call; otherwise the last
turn's content becomes the query, the remaining turns are converted and
passed as history, and the stored summary is attached. -/
def chat_with_llm (st : AppState) (history : List ChatMessage) :
    Except PyErr LLMCall :=
  if optStrTruthy st.llm_summary then
    let user_query :=
      match history.getLast? with
      | some m => m.content
      | none => ""
    let chat_history := history.dropLast
    .ok ⟨convertHistory chat_history, user_query, st.llm_summary.getD ""⟩
  else .error (.httpException 400)

/-- The pydantic `AnalysisResponse` model (suggestion field included). -/
structure AnalysisResponse where
  performance_score : Int
  metrics : List Metric
  initial_suggestion : String

/-- The frontend score expression of `main.py` line 54:
`report.get("lighthouseResult", {}).get("categories", {})
.get("performance", {}).get("score", 0) * 100` (before `int(...)`). -/
def mainScoreRaw (report : J) : Except PyErr J := do
  let lr ← pyGet report "lighthouseResult" (.d [])
  let cats ← pyGet lr "categories" (.d [])
  let perf ← pyGet cats "performance" (.d [])
  let score ← pyGet perf "score" (J.i 0)
  pyMul score 100

/-- The integer score actually returned by a successful analyze:
`int(performance_score)`. -/
def mainScore (report : J) : Except PyErr Int :=
  (mainScoreRaw report).bind pyInt

/-- Embedding of `analyze_website` from `main.py` lines 36-61, as a state transformer.
`prov` is the outcome of the PageSpeed provider call and `llm` the
outcome of `get_initial_suggestion`; the returned pair is the state as
left behind by the request together with its outcome.  The source
assigns `app_state.full_report` (line 46) before summarization and
`app_state.llm_summary` (line 48) before the model call, so failures of
later steps leave the earlier assignments in place. -/
def analyze_website (st : AppState) (prov : Except PyErr J)
    (llm : Except PyErr String) (url : String) :
    AppState × Except PyErr AnalysisResponse :=
  match prov with
  | .error e => (st, .error e)
  | .ok report =>
    let st1 : AppState := ⟨some report, st.llm_summary⟩
    match extract_info_for_llm report with
    | .error e => (st1, .error e)
    | .ok llm_summary =>
      match format_for_llm llm_summary url with
      | .error e => (st1, .error e)
      | .ok summary =>
        let st2 : AppState := ⟨some report, some summary⟩
        match llm with
        | .error e => (st2, .error e)
        | .ok initial_suggestion =>
          match mainScoreRaw report with
          | .error e => (st2, .error e)
          | .ok scoreJ =>
            match extract_key_metrics report with
            | .error e => (st2, .error e)
            | .ok key_metrics =>
              match pyInt scoreJ with
              | .error e => (st2, .error e)
              | .ok sc => (st2, .ok ⟨sc, key_metrics, initial_suggestion⟩)

/-!
Spec-side view functions.  These are total observations of a raw report
(or of extractor output), written from the spec's vocabulary; the
theorems below relate the embedded source functions to them.
-/

/-- The audits dictionary of a report, viewed totally along the
`lighthouseResult.audits` path (empty when the path is absent or not a
dict). -/
def auditsAssoc (data : J) : List (String × J) :=
  match jGetD (jGetD data "lighthouseResult" (.d [])) "audits" (.d []) with
  | .d kvs => kvs
  | _ => []

/-- Spec §4.1: the `DisplayMetric` expected for one metric id — the
audit's `title` when present (else the humanized id) and its
`displayValue` when present (else `"N/A"`). -/
def specMetric (audits : List (String × J)) (mid : String) : Metric :=
  match dictGet audits mid with
  | some (.d ma) =>
      ⟨(match dictGet ma "title" with
        | some (.s t) => t
        | _ => humanizeId mid),
       (match dictGet ma "displayValue" with
        | some (.s v) => v
        | _ => "N/A")⟩
  | _ => ⟨humanizeId mid, "N/A"⟩

/-- Whether a dict key is absent or bound to a string (the shapes pydantic
accepts for a `str` field). -/
def strOrAbsent (kvs : List (String × J)) (key : String) : Bool :=
  match dictGet kvs key with
  | none => true
  | some (.s _) => true
  | _ => false

/-- Well-formedness of one looked-up metric audit: a dict (or absent)
whose `title` and `displayValue` are strings when present. -/
def metricAuditWF (audits : List (String × J)) (mid : String) : Bool :=
  match dictGetD audits mid (.d []) with
  | .d ma => strOrAbsent ma "title" && strOrAbsent ma "displayValue"
  | _ => false

/-- Well-formedness of a report for `extract_key_metrics`: the
`lighthouseResult` and `audits` values are dicts (or absent), and each
looked-up metric audit is well-formed. -/
def keyMetricsWF (data : J) : Bool :=
  match data with
  | .d kvs =>
      match dictGetD kvs "lighthouseResult" (.d []) with
      | .d lr =>
          match dictGetD lr "audits" (.d []) with
          | .d au => metrics_to_extract.all (metricAuditWF au)
          | _ => false
      | _ => false
  | _ => false

/-- Spec §4.2 step 3: an audit qualifies as an Opportunity iff its
`details.type` equals `"opportunity"` and its `details.overallSavingsMs`
is positive or its `details.items` is non-empty (Python truthiness). -/
def specQualifies (audit : J) : Bool :=
  let details := jGetD audit "details" (.d [])
  pyEqStr (jGetD details "type" .null) "opportunity" &&
    (numGtZero (jGetD details "overallSavingsMs" (J.i 0)) ||
      pyTruthy (jGetD details "items" (.l [])))

/-- Total `.0f` rendering used by the spec-side opportunity view. -/
def totalFmt0 : J → String
  | .num x => fmt0 x
  | .b x => if x then "1" else "0"
  | _ => ""

/-- Total first element of an iterable, `.null` when there is none. -/
def jFirst : J → J
  | .l (x :: _) => x
  | .s x =>
      match x.data with
      | c :: _ => .s (String.mk [c])
      | [] => .null
  | _ => .null

/-- Spec-side per-item opportunity lines: the total counterpart of
`oppItemLine`, agreeing with it whenever the latter succeeds. -/
def specOppItemLines (audit_id : String) (item : J) : List String :=
  if audit_id = "bootup-time" then
    ["  - Script: " ++ pyStr (jGetD item "url" .null) ++ ", CPU Time: " ++
      totalFmt0 (jGetD item "total" .null) ++ "ms"]
  else if audit_id = "image-delivery-insight" then
    let sub := jGetD item "subItems" .null
    if pyTruthy sub then
      let first := jFirst (jGetD sub "items" .null)
      ["  - Image: " ++ pyStr (jGetD item "url" .null) ++ ", Reason: " ++
        pyStr (jGetD first "reason" (.s "Optimization needed"))]
    else []
  else []

/-- Spec-side Opportunity record emitted for a qualifying audit. -/
def specOpportunity (audit_id : String) (audit : J) : Opportunity :=
  let details := jGetD audit "details" (.d [])
  { title := jGetD audit "title" .null
    description := jGetD audit "description" .null
    savings := jGetD audit "displayValue" (.s "")
    items := ((jIterTotal (jGetD details "items" (.l []))).map
      (specOppItemLines audit_id)).flatten }

/-- Spec §4.2 step 3 as a whole: the qualifying audits in report order,
each rendered as an Opportunity. -/
def oppsSpec (audits : List (String × J)) : List Opportunity :=
  (audits.filter (fun p => specQualifies p.2)).map
    (fun p => specOpportunity p.1 p.2)

/-- Spec §4.2 step 4 / §8: whether a resource-summary item's
`resourceType` is in the allowed set. -/
def specAllowed (item : J) : Bool :=
  allowedResourceTypes.any (fun t => pyEqStr (jGetD item "resourceType" .null) t)

/-- Spec-side rendering of one allowed resource-summary item, agreeing
with `rsLine` whenever the latter succeeds on the item. -/
def specRsLine (item : J) : String :=
  "  - " ++ pyStr (jGetD item "label" .null) ++ ": " ++
    pyStr (jGetD item "requestCount" .null) ++ " requests, " ++
    fmt0 (jDivTotal (jGetD item "transferSize" (J.i 0)) 1024) ++ " KB"

/-- The `details.items` list of the resource-summary audit, viewed totally
(`none` when the path is absent or not a list). -/
def rsItemsView (data : J) : Option (List J) :=
  let audits : J := .d (auditsAssoc data)
  let rs := jGetD audits "resource-summary" (.d [])
  let det := jGetD rs "details" (.d [])
  match jGetD det "items" .null with
  | .l items => some items
  | _ => none

/-- Newline splitting of a string's characters (the final fragment is kept,
so a string without newlines is one line). -/
def splitNl : List Char → List (List Char)
  | [] => [[]]
  | c :: rest =>
      if c = '\n' then [] :: splitNl rest
      else
        match splitNl rest with
        | [] => [[c]]
        | line :: ls => (c :: line) :: ls

/-- Number of lines of a rendered string: zero for the empty string, else
the number of newline-separated fragments. -/
def lineCount (x : String) : Nat :=
  if x.data.isEmpty then 0 else (splitNl x.data).length

/-- Whether a string contains no newline character. -/
def noNlStr (x : String) : Bool := x.data.all (fun c => c ≠ '\n')

/-- The performance score is structurally absent for the frontend score
expression: the `categories` / `performance` lookups yield dicts (or
default) and the `score` key is missing. -/
def mainScoreDefaulted (report : J) : Bool :=
  match report with
  | .d kvs =>
      match dictGetD kvs "lighthouseResult" (.d []) with
      | .d lr =>
          match dictGetD lr "categories" (.d []) with
          | .d cats =>
              match dictGetD cats "performance" (.d []) with
              | .d perf => (dictGet perf "score").isNone
              | _ => false
          | _ => false
      | _ => false
  | _ => false

/-!
Concrete reports and values used by witnesses and counterexamples.
-/

/-- A dictionary report whose bootup-time opportunity item lacks the
numeric `total` field that the f-string renders with `.0f`. -/
def bootupNoTotalReport : J :=
  .d [("lighthouseResult", .d [("audits", .d [("bootup-time", .d [("details",
    .d [("type", .s "opportunity"), ("overallSavingsMs", J.i 1),
        ("items", .l [.d [("url", .s "a.js")]])])])])])]

/-- A report carrying a standalone `interactive` audit and nothing else. -/
def interactiveReport : J :=
  .d [("lighthouseResult", .d [("audits", .d [("interactive",
    .d [("title", .s "Time to Interactive"),
        ("displayValue", .s "2.1 s")])])])]

/-- A report with a truthy lighthouse result but no categories tree (and
hence no performance category). -/
def noCategoryReport : J := .d [("lighthouseResult", .d [("audits", .d [])])]

/-- A report whose resource-summary has exactly one allowed item, with an
embedded newline in its label. -/
def newlineLabelReport : J :=
  .d [("lighthouseResult", .d [("audits", .d [("resource-summary",
    .d [("details", .d [("items", .l [.d [("resourceType", .s "total"),
      ("label", .s "a\nb")]])])])])])]

/-- A report with one zero-savings empty-items opportunity audit and one
opportunity audit with `overallSavingsMs = 1`. -/
def savingsReport : J :=
  .d [("lighthouseResult", .d [("audits", .d [
    ("zero-opp", .d [("details", .d [("type", .s "opportunity"),
      ("overallSavingsMs", J.i 0), ("items", .l [])])]),
    ("one-opp", .d [("title", .s "T"), ("displayValue", .s "1 ms"),
      ("details", .d [("type", .s "opportunity"),
        ("overallSavingsMs", J.i 1)])])])])]

/-- Resource-summary items: two allowed (one fully populated, one bare)
and one disallowed. -/
def rsWitnessItems : List J :=
  [.d [("resourceType", .s "total"), ("label", .s "Total"),
       ("requestCount", J.i 3), ("transferSize", J.i 2048)],
   .d [("resourceType", .s "stylesheet")],
   .d [("resourceType", .s "script")]]

/-- A report whose resource-summary carries `rsWitnessItems`. -/
def rsWitnessReport : J :=
  .d [("lighthouseResult", .d [("audits", .d [("resource-summary",
    .d [("details", .d [("items", .l rsWitnessItems)])])])])]

/-- Spec §8 scenario A: a report carrying only a first-contentful-paint
audit with title and display value. -/
def scenarioAReport : J :=
  .d [("lighthouseResult", .d [("audits", .d [("first-contentful-paint",
    .d [("title", .s "First Contentful Paint"),
        ("displayValue", .s "1.2 s")])])])]

/-- The six default display metrics produced for a report without any of
the requested audits: humanized titles and `"N/A"` values. -/
def defaultMetrics : List Metric :=
  [⟨"First Contentful Paint", "N/A"⟩, ⟨"Speed Index", "N/A"⟩,
   ⟨"Largest Contentful Paint", "N/A"⟩, ⟨"Interactive", "N/A"⟩,
   ⟨"Total Blocking Time", "N/A"⟩, ⟨"Cumulative Layout Shift", "N/A"⟩]

/-!
Inversion helpers: successful runs of the fallible operations determine
the shapes of their inputs and agree with the total view functions.
-/

theorem except_bind_ok {α β : Type} {e : Except PyErr α} {f : α → Except PyErr β}
    {v : β} (h : e >>= f = .ok v) : ∃ a, e = .ok a ∧ f a = .ok v := by
  cases e with
  | error err => simp [Bind.bind, Except.bind] at h
  | ok a => exact ⟨a, rfl, by simpa [Bind.bind, Except.bind] using h⟩

theorem pyGet_ok {v : J} {key : String} {dflt r : J}
    (h : pyGet v key dflt = .ok r) :
    ∃ kvs, v = .d kvs ∧ r = dictGetD kvs key dflt := by
  cases v <;> simp [pyGet] at h
  case d kvs => exact ⟨kvs, rfl, h.symm⟩

theorem pyItems_ok {v : J} {kvs : List (String × J)}
    (h : pyItems v = .ok kvs) : v = .d kvs := by
  cases v <;> simp [pyItems] at h
  case d kvs' => rw [h]

theorem pySubscriptS_ok {v : J} {key : String} {r : J}
    (h : pySubscriptS v key = .ok r) :
    ∃ kvs, v = .d kvs ∧ dictGet kvs key = some r := by
  cases v <;> simp [pySubscriptS] at h
  case d kvs =>
    cases hg : dictGet kvs key with
    | none => rw [hg] at h; simp at h
    | some x => rw [hg] at h; simp at h; exact ⟨kvs, rfl, by rw [hg, h]⟩

theorem pyIter_ok {v : J} {xs : List J} (h : pyIter v = .ok xs) :
    jIterTotal v = xs := by
  cases v <;> simp [pyIter, jIterTotal] at h ⊢ <;> assumption

theorem pyGtZero_ok {v : J} {g : Bool} (h : pyGtZero v = .ok g) :
    numGtZero v = g := by
  cases v <;> simp [pyGtZero, numGtZero] at h ⊢ <;> assumption

theorem pyFmt0_ok {v : J} {x : String} (h : pyFmt0 v = .ok x) :
    totalFmt0 v = x := by
  cases v <;> simp [pyFmt0, totalFmt0] at h ⊢ <;> assumption

theorem pyDivNum_ok {v : J} {m : Nat} {q : PyNum} (h : pyDivNum v m = .ok q) :
    jDivTotal v m = q := by
  cases v <;> simp [pyDivNum, jDivTotal] at h ⊢ <;> assumption

theorem pyIndex0_ok {v : J} {r : J} (h : pyIndex0 v = .ok r) : jFirst v = r := by
  cases v with
  | l xs => cases xs <;> simp [pyIndex0, jFirst] at h ⊢; assumption
  | s x =>
      cases hx : x.data with
      | nil =>
          rw [pyIndex0.eq_def] at h
          simp [hx] at h
      | cons c cs =>
          rw [pyIndex0.eq_def] at h
          simp [hx] at h
          simp [jFirst, hx]
          assumption
  | _ => simp [pyIndex0] at h

theorem jGetD_dict (kvs : List (String × J)) (key : String) (dflt : J) :
    jGetD (.d kvs) key dflt = dictGetD kvs key dflt := rfl

theorem dictGet_of_truthy {kvs : List (String × J)} {key : String} {d0 : J}
    (hd : pyTruthy d0 = false)
    (h : pyTruthy (dictGetD kvs key d0) = true) :
    dictGet kvs key = some (dictGetD kvs key d0) := by
  unfold dictGetD at *
  cases hg : dictGet kvs key with
  | none =>
      rw [hg] at h
      simp [Option.getD] at h
      rw [h] at hd
      simp at hd
  | some x => simp [Option.getD]

theorem pyGet_dict (kvs : List (String × J)) (key : String) (dflt : J) :
    pyGet (.d kvs) key dflt = .ok (dictGetD kvs key dflt) := rfl

theorem ok_bind {α β : Type} (a : α) (f : α → Except PyErr β) :
    (Except.ok a : Except PyErr α) >>= f = f a := rfl

theorem pure_eq_ok {α : Type} {a b : α}
    (h : (pure a : Except PyErr α) = .ok b) : a = b := by
  simpa [pure, Except.pure] using h

/-- A successful run of the qualification test computes exactly the
spec-side predicate (and forces `details` to be a dict). -/
theorem oppQual_ok {details : J} {q : Bool} (h : oppQual details = .ok q) :
    ∃ dkvs, details = .d dkvs ∧
      (pyEqStr (jGetD details "type" .null) "opportunity" &&
        (numGtZero (jGetD details "overallSavingsMs" (J.i 0)) ||
          pyTruthy (jGetD details "items" (.l [])))) = q := by
  unfold oppQual at h
  obtain ⟨ty, hty, h⟩ := except_bind_ok h
  obtain ⟨dkvs, rfl, rfl⟩ := pyGet_ok hty
  refine ⟨dkvs, rfl, ?_⟩
  simp only [jGetD_dict]
  split at h
  case isTrue hcond =>
    rw [pyGet_dict, ok_bind] at h
    obtain ⟨gt, hgt, h⟩ := except_bind_ok h
    have hg := pyGtZero_ok hgt
    split at h
    case isTrue hgtt =>
      rw [hcond, hg, hgtt]
      simpa using (pure_eq_ok h)
    case isFalse hgtf =>
      rw [pyGet_dict, ok_bind] at h
      have hq := pure_eq_ok h
      rw [hcond, hg, Bool.not_eq_true] at *
      rw [hgtf]
      simpa using hq
  case isFalse hcond =>
    have hq := pure_eq_ok h
    rw [Bool.not_eq_true] at hcond
    rw [hcond]
    simpa using hq

theorem pySubscriptS_dict_ok {kvs : List (String × J)} {key : String} {r : J}
    (h : pySubscriptS (.d kvs) key = .ok r) : dictGet kvs key = some r := by
  simp only [pySubscriptS] at h
  split at h
  · rename_i x heq
    simp only [Except.ok.injEq] at h
    rw [heq, h]
  · simp at h

/-- A successful run of the per-item renderer computes the spec-side
lines. -/
theorem oppItemLine_ok {audit_id : String} {item : J} {ls : List String}
    (h : oppItemLine audit_id item = .ok ls) :
    specOppItemLines audit_id item = ls := by
  by_cases hb : audit_id = "bootup-time"
  · subst hb
    unfold oppItemLine at h
    rw [if_pos rfl] at h
    obtain ⟨url, hurl, h⟩ := except_bind_ok h
    obtain ⟨ikvs, rfl, rfl⟩ := pyGet_ok hurl
    rw [pyGet_dict, ok_bind] at h
    obtain ⟨ts, hts, h⟩ := except_bind_ok h
    unfold specOppItemLines
    rw [if_pos rfl]
    simp only [jGetD_dict, pyFmt0_ok hts]
    exact pure_eq_ok h
  · by_cases hi : audit_id = "image-delivery-insight"
    · subst hi
      unfold oppItemLine at h
      rw [if_neg hb, if_pos rfl] at h
      obtain ⟨sub, hsub, h⟩ := except_bind_ok h
      obtain ⟨ikvs, rfl, rfl⟩ := pyGet_ok hsub
      unfold specOppItemLines
      rw [if_neg hb, if_pos rfl]
      simp only [jGetD_dict]
      split at h
      · rename_i htr
        rw [if_pos htr]
        obtain ⟨sub', hsub', h⟩ := except_bind_ok h
        have hget2 := pySubscriptS_dict_ok hsub'
        have hsubeq : dictGetD ikvs "subItems" J.null = sub' := by
          unfold dictGetD
          rw [hget2]
          rfl
        obtain ⟨inner, hinner, h⟩ := except_bind_ok h
        obtain ⟨skvs, hseq, hgets⟩ := pySubscriptS_ok hinner
        obtain ⟨first, hfirst, h⟩ := except_bind_ok h
        have hfst := pyIndex0_ok hfirst
        obtain ⟨reason, hreason, h⟩ := except_bind_ok h
        obtain ⟨fkvs, hfeq, hrval⟩ := pyGet_ok hreason
        rw [pyGet_dict, ok_bind] at h
        have hin : jGetD (dictGetD ikvs "subItems" J.null) "items" J.null
            = inner := by
          rw [hsubeq, hseq, jGetD_dict]
          unfold dictGetD
          rw [hgets]
          rfl
        rw [hin, hfst, hfeq, jGetD_dict, ← hrval]
        exact pure_eq_ok h
      · rename_i htr
        rw [if_neg htr]
        exact pure_eq_ok h
    · unfold oppItemLine at h
      rw [if_neg hb, if_neg hi] at h
      unfold specOppItemLines
      rw [if_neg hb, if_neg hi]
      exact pure_eq_ok h

/-- A successful run of the opportunity item loop computes the flattened
spec-side lines. -/
theorem oppItemsLoop_ok {audit_id : String} {items : List J} {ls : List String}
    (h : oppItemsLoop audit_id items = .ok ls) :
    (items.map (specOppItemLines audit_id)).flatten = ls := by
  induction items generalizing ls with
  | nil => simpa [oppItemsLoop] using (pure_eq_ok h)
  | cons item rest ih =>
      unfold oppItemsLoop at h
      obtain ⟨hd, hhd, h⟩ := except_bind_ok h
      obtain ⟨tl, htl, h⟩ := except_bind_ok h
      rw [List.map_cons, List.flatten_cons, oppItemLine_ok hhd, ih htl]
      exact pure_eq_ok h

/-- A successful run of the audit enumeration computes the spec-side
opportunity list: qualifying audits in report order, rendered by
`specOpportunity`. -/
theorem oppsPart_ok {audits : List (String × J)} {os : List Opportunity}
    (h : oppsPart audits = .ok os) : oppsSpec audits = os := by
  induction audits generalizing os with
  | nil => simpa [oppsPart, oppsSpec] using (pure_eq_ok h)
  | cons p rest ih =>
      obtain ⟨audit_id, audit⟩ := p
      unfold oppsPart at h
      obtain ⟨details, hdet, h⟩ := except_bind_ok h
      obtain ⟨akvs, rfl, rfl⟩ := pyGet_ok hdet
      obtain ⟨q, hq, h⟩ := except_bind_ok h
      obtain ⟨dkvs, hdeq, hspec⟩ := oppQual_ok hq
      have hqual : specQualifies (.d akvs) = q := by
        unfold specQualifies
        rw [jGetD_dict]
        exact hspec
      obtain ⟨hd, hhd, h⟩ := except_bind_ok h
      obtain ⟨tl, htl, h⟩ := except_bind_ok h
      have hres := pure_eq_ok h
      unfold oppsSpec at ih ⊢
      simp only [List.filter_cons, List.map_cons, hqual]
      cases q with
      | true =>
          simp only [if_true, List.map_cons]
          unfold oppBuild at hhd
          rw [if_pos rfl, hdeq] at hhd
          rw [pyGet_dict, ok_bind] at hhd
          rw [pyGet_dict, ok_bind] at hhd
          rw [pyGet_dict, ok_bind] at hhd
          rw [pyGet_dict, ok_bind] at hhd
          obtain ⟨items, hitems, hhd⟩ := except_bind_ok hhd
          have hit := pyIter_ok hitems
          obtain ⟨lines, hlines, hhd⟩ := except_bind_ok hhd
          have hln := oppItemsLoop_ok hlines
          have hhd' := pure_eq_ok hhd
          rw [← hres, ← hhd', ih htl]
          congr 1
          unfold specOpportunity
          simp only [jGetD_dict, hdeq, jGetD_dict, hit, hln]
      | false =>
          unfold oppBuild at hhd
          rw [if_neg (by simp)] at hhd
          have hhd' := pure_eq_ok hhd
          simp only [Bool.false_eq_true, if_false]
          rw [← hres, ← hhd', ih htl]
          simp

/-- A successful run of the resource-summary line renderer renders the
single spec-side line for an allowed item and nothing otherwise. -/
theorem rsLine_ok {item : J} {ls : List String} (h : rsLine item = .ok ls) :
    ls = if specAllowed item then [specRsLine item] else [] := by
  unfold rsLine at h
  obtain ⟨rt, hrt, h⟩ := except_bind_ok h
  obtain ⟨ikvs, rfl, rfl⟩ := pyGet_ok hrt
  have hall : specAllowed (.d ikvs) =
      allowedResourceTypes.any
        (fun t => pyEqStr (dictGetD ikvs "resourceType" .null) t) := by
    unfold specAllowed
    rw [jGetD_dict]
  split at h
  · rename_i hc
    rw [pyGet_dict, ok_bind] at h
    obtain ⟨kb, hkb, h⟩ := except_bind_ok h
    have hkbv := pyDivNum_ok hkb
    rw [pyGet_dict, ok_bind, pyGet_dict, ok_bind] at h
    rw [hall, if_pos hc]
    unfold specRsLine
    simp only [jGetD_dict, hkbv]
    exact (pure_eq_ok h).symm
  · rename_i hc
    rw [hall, if_neg hc]
    exact (pure_eq_ok h).symm

/-- A successful run of the resource-summary loop renders exactly the
allowed items, in order. -/
theorem rsItemsLoop_ok {items : List J} {ls : List String}
    (h : rsItemsLoop items = .ok ls) :
    ls = (items.filter specAllowed).map specRsLine := by
  induction items generalizing ls with
  | nil => simpa [rsItemsLoop] using (pure_eq_ok h).symm
  | cons item rest ih =>
      unfold rsItemsLoop at h
      obtain ⟨hd, hhd, h⟩ := except_bind_ok h
      obtain ⟨tl, htl, h⟩ := except_bind_ok h
      have hres := pure_eq_ok h
      rw [List.filter_cons]
      rw [← hres, rsLine_ok hhd, ih htl]
      cases hca : specAllowed item <;> simp [hca]

/-- A successful run of the resource-summary part, for a report whose
resource-summary audit carries a `details.items` list, produces no
diagnostic for an empty list and the newline-join of the rendered
allowed items otherwise. -/
theorem rsPart_items_ok {akvs : List (String × J)} {items : List J}
    {r : Option String}
    (hv : jGetD (jGetD (dictGetD akvs "resource-summary" (.d []))
      "details" (.d [])) "items" .null = .l items)
    (h : rsPart (.d akvs) = .ok r) :
    r = if items.isEmpty then none
        else some (joinNl ((items.filter specAllowed).map specRsLine)) := by
  unfold rsPart at h
  rw [pyGet_dict, ok_bind] at h
  obtain ⟨g, hg, h⟩ := except_bind_ok h
  unfold rsGuard at hg
  split at hg
  · rename_i hrt
    obtain ⟨det, hdet, hg⟩ := except_bind_ok hg
    obtain ⟨rskvs, hrs, hdetv⟩ := pyGet_ok hdet
    rw [hrs] at hv h
    rw [jGetD_dict, ← hdetv] at hv
    obtain ⟨its, hits, hg⟩ := except_bind_ok hg
    obtain ⟨detkvs, hdkv, hitsv⟩ := pyGet_ok hits
    rw [hdkv, jGetD_dict, ← hitsv] at hv
    have hgv := pure_eq_ok hg
    rw [hv] at hgv
    cases hemp : items.isEmpty with
    | true =>
        rw [List.isEmpty_iff] at hemp
        subst hemp
        simp only [pyTruthy, List.isEmpty_nil, Bool.not_true] at hgv
        rw [← hgv, if_neg (by simp)] at h
        simpa using (pure_eq_ok h).symm
    | false =>
        have hgt : g = true := by
          rw [← hgv]
          simp [pyTruthy, hemp]
        rw [hgt, if_pos rfl] at h
        obtain ⟨det', hdet', h⟩ := except_bind_ok h
        have hdg := pySubscriptS_dict_ok hdet'
        have hdet'' : det' = det := by
          rw [hdetv]
          unfold dictGetD
          rw [hdg]
          rfl
        rw [hdet'', hdkv] at h
        obtain ⟨itemsJ, hij, h⟩ := except_bind_ok h
        have hjg := pySubscriptS_dict_ok hij
        have hijv : itemsJ = .l items := by
          have h2 : dictGetD detkvs "items" .null = itemsJ := by
            unfold dictGetD
            rw [hjg]
            rfl
          rw [← h2, ← hitsv, hv]
        rw [hijv] at h
        obtain ⟨items', hiter, h⟩ := except_bind_ok h
        have hii : items' = items := by
          have h5 := pyIter_ok hiter
          simpa [jIterTotal] using h5.symm
        rw [hii] at h
        obtain ⟨lines, hlines, h⟩ := except_bind_ok h
        have hln := rsItemsLoop_ok hlines
        simp only [Bool.false_eq_true, if_false]
        rw [← hln]
        exact (pure_eq_ok h).symm
  · rename_i hrf
    rw [Bool.not_eq_true] at hrf
    exfalso
    revert hv hrf
    cases dictGetD akvs "resource-summary" (.d []) with
    | d kvs =>
        intro hv hrf
        cases kvs with
        | nil => simp [jGetD, dictGetD, dictGet] at hv
        | cons p ps => simp [pyTruthy] at hrf
    | null => intro hv _; simp [jGetD, dictGetD, dictGet] at hv
    | b x => intro hv hrf; simp [jGetD, dictGetD, dictGet] at hv
    | num x => intro hv _; simp [jGetD, dictGetD, dictGet] at hv
    | s x => intro hv _; simp [jGetD, dictGetD, dictGet] at hv
    | l xs => intro hv _; simp [jGetD, dictGetD, dictGet] at hv

/-- Inversion of a successful, non-empty extraction: the report and its
`lighthouseResult` / `audits` values are dicts, and the opportunity and
resource-summary fields of the result come from the corresponding
parts run on those audits. -/
theorem extract_ok_inv {data : J} {info : ExtractedInfo}
    (h : extract_info_for_llm data = .ok (some info)) :
    ∃ kvs lrkvs akvs,
      data = .d kvs ∧
      dictGetD kvs "lighthouseResult" (.d []) = .d lrkvs ∧
      dictGetD lrkvs "audits" (.d []) = .d akvs ∧
      oppsPart akvs = .ok info.opportunities ∧
      rsPart (.d akvs) = .ok info.resource_summary := by
  cases data with
  | d kvs =>
      simp only [extract_info_for_llm] at h
      split at h
      · obtain ⟨audits, hau, h⟩ := except_bind_ok h
        obtain ⟨lrkvs, hlr, hauv⟩ := pyGet_ok hau
        obtain ⟨score, hsc, h⟩ := except_bind_ok h
        obtain ⟨metrics, hme, h⟩ := except_bind_ok h
        obtain ⟨akvs, hitems, h⟩ := except_bind_ok h
        have hakv : audits = .d akvs := pyItems_ok hitems
        obtain ⟨opps, hopps, h⟩ := except_bind_ok h
        obtain ⟨crc, hcrc, h⟩ := except_bind_ok h
        obtain ⟨rs, hrs, h⟩ := except_bind_ok h
        have hfin := pure_eq_ok h
        obtain rfl : info = ⟨score, metrics, opps, crc, rs⟩ := by
          injection hfin with h'
          exact h'.symm
        refine ⟨kvs, lrkvs, akvs, rfl, hlr, ?_, hopps, ?_⟩
        · rw [← hauv, hakv]
        · rwa [hakv] at hrs
      · simp at h
  | null => simp [extract_info_for_llm] at h
  | b x => simp [extract_info_for_llm] at h
  | num x => simp [extract_info_for_llm] at h
  | s x => simp [extract_info_for_llm] at h
  | l xs => simp [extract_info_for_llm] at h

/-- Splitting a newline-free character list yields that single line. -/
theorem splitNl_noNl {a : List Char} (h : '\n' ∉ a) : splitNl a = [a] := by
  induction a with
  | nil => rfl
  | cons c cs ih =>
      simp only [List.mem_cons, not_or] at h
      obtain ⟨h1, h2⟩ := h
      unfold splitNl
      rw [if_neg (fun hc => h1 hc.symm), ih h2]

theorem splitNl_cons (c : Char) (rest : List Char) :
    splitNl (c :: rest) =
      if c = '\n' then [] :: splitNl rest
      else
        match splitNl rest with
        | [] => [[c]]
        | line :: ls => (c :: line) :: ls := rfl

/-- Splitting after a newline-free prefix peels off that prefix. -/
theorem splitNl_append {a : List Char} (h : '\n' ∉ a) (b : List Char) :
    splitNl (a ++ '\n' :: b) = a :: splitNl b := by
  induction a with
  | nil =>
      simp only [List.nil_append]
      rw [splitNl_cons, if_pos rfl]
  | cons c cs ih =>
      simp only [List.mem_cons, not_or] at h
      obtain ⟨h1, h2⟩ := h
      simp only [List.cons_append]
      rw [splitNl_cons, if_neg (fun hc => h1 hc.symm), ih h2]

/-- Appending as strings appends the character lists. -/
theorem str_data_append (a b : String) : (a ++ b).data = a.data ++ b.data := rfl

/-- A newline-join of non-empty lines is itself non-empty. -/
theorem joinNl_data_ne_nil {es : List String} (hne : es ≠ [])
    (h : ∀ e ∈ es, e.data ≠ []) : (joinNl es).data ≠ [] := by
  cases es with
  | nil => exact absurd rfl hne
  | cons x xs =>
      cases xs with
      | nil => exact h x (by simp)
      | cons y ys =>
          show (x ++ "\n" ++ joinNl (y :: ys)).data ≠ []
          rw [str_data_append, str_data_append]
          have hx := h x (by simp)
          cases hd : x.data with
          | nil => exact absurd hd hx
          | cons c cs => simp [hd]

/-- The number of lines of a newline-join of non-empty, newline-free
lines is the number of lines joined. -/
theorem lineCount_joinNl {es : List String}
    (h : ∀ e ∈ es, e.data ≠ [] ∧ '\n' ∉ e.data) :
    lineCount (joinNl es) = es.length := by
  induction es with
  | nil => rfl
  | cons x xs ih =>
      cases xs with
      | nil =>
          obtain ⟨hx1, hx2⟩ := h x (by simp)
          show lineCount x = 1
          unfold lineCount
          rw [if_neg (by simpa [List.isEmpty_iff] using hx1), splitNl_noNl hx2]
          rfl
      | cons y ys =>
          obtain ⟨hx1, hx2⟩ := h x (by simp)
          have hrest : ∀ e ∈ y :: ys, e.data ≠ [] ∧ '\n' ∉ e.data :=
            fun e he => h e (by simp [he])
          have hkey : (joinNl (x :: y :: ys)).data =
              x.data ++ '\n' :: (joinNl (y :: ys)).data := by
            show (x ++ "\n" ++ joinNl (y :: ys)).data = _
            rw [str_data_append, str_data_append]
            simp
          have hne2 : (joinNl (y :: ys)).data ≠ [] :=
            joinNl_data_ne_nil (by simp) (fun e he => (hrest e he).1)
          unfold lineCount
          rw [hkey]
          rw [if_neg (by
            simp only [List.isEmpty_iff]
            cases hd : x.data with
            | nil => exact absurd hd hx1
            | cons c cs => simp)]
          rw [splitNl_append hx2]
          have ihv := ih hrest
          unfold lineCount at ihv
          rw [if_neg (by simpa [List.isEmpty_iff] using hne2)] at ihv
          simp [ihv]

/-- Under `strOrAbsent`, a defaulted lookup with a string default always
yields the string computed by the corresponding spec-side match. -/
theorem strOrAbsent_getD {ma : List (String × J)} {key : String} {dflt : String}
    (h : strOrAbsent ma key = true) :
    dictGetD ma key (.s dflt) =
      .s (match dictGet ma key with
          | some (.s t) => t
          | _ => dflt) := by
  unfold strOrAbsent at h
  unfold dictGetD
  cases hg : dictGet ma key with
  | none => rfl
  | some x =>
      rw [hg] at h
      cases x with
      | s t => rfl
      | null => simp at h
      | b y => simp at h
      | num y => simp at h
      | l ys => simp at h
      | d ys => simp at h

/-- Under per-audit well-formedness, the metric loop succeeds and returns
exactly the spec-side metrics, in id order. -/
theorem keyMetricsLoop_ok {au : List (String × J)} :
    ∀ mids : List String, (∀ mid ∈ mids, metricAuditWF au mid = true) →
      keyMetricsLoop (.d au) mids = .ok (mids.map (specMetric au))
  | [], _ => rfl
  | mid :: rest, hwf => by
      have hw := hwf mid (by simp)
      have hrest : ∀ m ∈ rest, metricAuditWF au m = true :=
        fun m hm => hwf m (by simp [hm])
      have ih := keyMetricsLoop_ok rest hrest
      unfold keyMetricsLoop
      rw [pyGet_dict, ok_bind]
      unfold metricAuditWF at hw
      cases hmg : dictGet au mid with
      | none =>
          have hd : dictGetD au mid (.d []) = .d [] := by
            unfold dictGetD
            rw [hmg]
            rfl
          rw [hd]
          rw [pyGet_dict, ok_bind, pyGet_dict, ok_bind]
          show (keyMetricsLoop (.d au) rest).bind _ = _
          rw [ih]
          unfold specMetric
          rw [List.map_cons, hmg]
          rfl
      | some x =>
          have hd : dictGetD au mid (.d []) = x := by
            unfold dictGetD
            rw [hmg]
            rfl
          rw [hd] at hw
          cases x with
          | d ma =>
              rw [hd]
              rw [pyGet_dict, ok_bind, pyGet_dict, ok_bind]
              rw [Bool.and_eq_true] at hw
              obtain ⟨hwt, hwv⟩ := hw
              rw [strOrAbsent_getD hwt, strOrAbsent_getD hwv]
              show (keyMetricsLoop (.d au) rest).bind _ = _
              rw [ih]
              unfold specMetric
              rw [List.map_cons, hmg]
              rfl
          | null => simp at hw
          | b y => simp at hw
          | num y => simp at hw
          | s y => simp at hw
          | l ys => simp at hw

/-- Role-respecting histories convert turn by turn, preserving order,
role and content. -/
theorem convertHistory_map {l : List ChatMessage}
    (h : ∀ t ∈ l, t.role = "user" ∨ t.role = "assistant") :
    convertHistory l = l.map (fun t =>
      if t.role = "user" then LCMessage.human t.content
      else LCMessage.ai t.content) := by
  induction l with
  | nil => rfl
  | cons m rest ih =>
      have hm := h m (by simp)
      have hr : ∀ t ∈ rest, t.role = "user" ∨ t.role = "assistant" :=
        fun t ht => h t (by simp [ht])
      unfold convertHistory
      rw [ih hr, List.map_cons]
      rcases hm with hm | hm <;> rw [hm] <;> simp

/-- With the score structurally absent, the frontend score expression
evaluates to the integer zero before truncation. -/
theorem mainScoreRaw_defaulted {report : J}
    (h : mainScoreDefaulted report = true) :
    mainScoreRaw report = .ok (J.i 0) := by
  unfold mainScoreDefaulted at h
  split at h
  · rename_i kvs
    split at h
    · rename_i lr hlr
      split at h
      · rename_i cats hca
        split at h
        · rename_i perf hpf
          unfold mainScoreRaw
          rw [pyGet_dict, ok_bind, hlr, pyGet_dict, ok_bind, hca,
            pyGet_dict, ok_bind, hpf, pyGet_dict, ok_bind]
          rw [Option.isNone_iff_eq_none] at h
          have hs : dictGetD perf "score" (J.i 0) = J.i 0 := by
            unfold dictGetD
            rw [h]
            rfl
          rw [hs]
          simp [pyMul, J.i]
        · simp at h
      · simp at h
    · simp at h
  · simp at h

/-- Inversion of a successful analyze with a provider-supplied report:
the final state holds the report and the formatted summary, and the
returned score is the frontend score expression of that report. -/
theorem analyze_ok_inv {st : AppState} {report : J} {llm : Except PyErr String}
    {url : String} {st' : AppState} {resp : AnalysisResponse}
    (h : analyze_website st (.ok report) llm url = (st', .ok resp)) :
    (∃ info summary, extract_info_for_llm report = .ok info ∧
      format_for_llm info url = .ok summary ∧
      st' = ⟨some report, some summary⟩) ∧
    mainScore report = .ok resp.performance_score := by
  unfold analyze_website at h
  dsimp only at h
  cases hE : extract_info_for_llm report with
  | error e => rw [hE] at h; simp [Prod.ext_iff] at h
  | ok info =>
      rw [hE] at h
      dsimp only at h
      cases hF : format_for_llm info url with
      | error e => rw [hF] at h; simp [Prod.ext_iff] at h
      | ok summary =>
          rw [hF] at h
          dsimp only at h
          cases llm with
          | error e => simp [Prod.ext_iff] at h
          | ok sugg =>
              dsimp only at h
              cases hR : mainScoreRaw report with
              | error e => rw [hR] at h; simp [Prod.ext_iff] at h
              | ok scoreJ =>
                  rw [hR] at h
                  dsimp only at h
                  cases hM : extract_key_metrics report with
                  | error e => rw [hM] at h; simp [Prod.ext_iff] at h
                  | ok ms =>
                      rw [hM] at h
                      dsimp only at h
                      cases hI : pyInt scoreJ with
                      | error e => rw [hI] at h; simp [Prod.ext_iff] at h
                      | ok sc =>
                          rw [hI] at h
                          dsimp only at h
                          simp only [Prod.mk.injEq, Except.ok.injEq] at h
                          obtain ⟨hst, hresp⟩ := h
                          refine ⟨⟨info, summary, rfl, hF, hst.symm⟩, ?_⟩
                          unfold mainScore
                          rw [hR]
                          show pyInt scoreJ = Except.ok resp.performance_score
                          rw [hI, ← hresp]

/-!
The ten claims.
-/

/-- C1 counterexample: the claim "a dictionary input never raises" is
false — on this dictionary report, rendering the bootup-time item's
missing `total` with `.0f` raises a type error, which also refutes the
"type error only for non-dictionary input" direction. -/
theorem c1_counterexample :
    isDictJ bootupNoTotalReport = true ∧
    extract_info_for_llm bootupNoTotalReport = .error .typeError :=
  ⟨rfl, rfl⟩

/-- C1 (amended): every non-dictionary input to `extract_info_for_llm`
raises a type error; for dictionary inputs, fields reached by defaulted
lookups degrade to "absent", but rendering steps (such as a bootup-time
item's missing numeric `total`) can still raise a type error, so dict
inputs are not exception-free. -/
theorem c1_nondict_typeError (data : J) (h : isDictJ data = false) :
    extract_info_for_llm data = .error .typeError := by
  cases data with
  | d kvs => simp [isDictJ] at h
  | null => rfl
  | b x => rfl
  | num x => rfl
  | s x => rfl
  | l xs => rfl

/-- C1 witness: the amended theorem applied to the non-dict input `None`. -/
theorem c1_nondict_typeError_witness :
    isDictJ .null = false ∧ extract_info_for_llm .null = .error .typeError :=
  ⟨rfl, c1_nondict_typeError .null rfl⟩

/-- C2: the source's `metric_ids` list has five entries, not six — the
missing comma concatenates "speed-index" and "interactive" into one id —
so "interactive" is not a standalone id and a report whose audits
contain an `interactive` audit gets no core-metric entry at all. -/
theorem c2_metric_ids_defect :
    metric_ids = ["largest-contentful-paint", "total-blocking-time",
      "cumulative-layout-shift", "first-contentful-paint",
      "speed-indexinteractive"] ∧
    metric_ids.length = 5 ∧
    ("interactive" ∈ metric_ids → False) ∧
    extract_info_for_llm interactiveReport =
      .ok (some ⟨none, [], [], none, none⟩) := by
  refine ⟨rfl, rfl, ?_, rfl⟩
  decide

/-- C3 counterexample: an analyze whose summarization step fails has
already overwritten `full_report` (line 46 of `main.py` runs before the
fallible extraction of line 47), so Session State does not remain at its
previous value on a failed analyze. -/
theorem c3_counterexample :
    (analyze_website ⟨none, none⟩ (.ok bootupNoTotalReport) (.ok "s") "u").2
      = .error .typeError ∧
    (analyze_website ⟨none, none⟩
      (.ok bootupNoTotalReport) (.ok "s") "u").1.full_report
      = some bootupNoTotalReport ∧
    (⟨none, none⟩ : AppState).full_report = none :=
  ⟨rfl, rfl, rfl⟩

/-- C3 (amended): when the provider call fails, Session State remains
exactly at its previous value; when analyze completes successfully, both
fields are overwritten together (the report and its formatted summary).
A failure after the provider call, however, occurs after part or all of
the state has been overwritten. -/
theorem c3_state_amended :
    (∀ (st : AppState) (e : PyErr) (llm : Except PyErr String) (url : String),
      analyze_website st (.error e) llm url = (st, .error e)) ∧
    (∀ (st : AppState) (report : J) (llm : Except PyErr String) (url : String)
      (st' : AppState) (resp : AnalysisResponse),
      analyze_website st (.ok report) llm url = (st', .ok resp) →
      ∃ summary : String, st' = ⟨some report, some summary⟩) := by
  constructor
  · intro st e llm url
    rfl
  · intro st report llm url st' resp h
    obtain ⟨⟨info, summary, _, _, hst⟩, _⟩ := analyze_ok_inv h
    exact ⟨summary, hst⟩

/-- C3 witness: a failing provider leaves the empty state unchanged, and
a successful analyze of a minimal report ends with both fields set. -/
theorem c3_state_amended_witness :
    analyze_website ⟨none, none⟩ (.error (.httpException 400)) (.ok "s") "u"
      = (⟨none, none⟩, .error (.httpException 400)) ∧
    (∃ summary : String,
      (analyze_website ⟨none, none⟩ (.ok noCategoryReport) (.ok "s") "u").1
        = ⟨some noCategoryReport, some summary⟩) ∧
    (analyze_website ⟨none, none⟩ (.ok noCategoryReport) (.ok "s") "u").1
      = ⟨some noCategoryReport,
         some "--- Performance Summary Report for URL: u ---\n\n--- Core Metrics ---\n\n--- Top Opportunities for Improvement ---\nNo significant opportunities were identified.\n\n--- Key Diagnostics ---\nNo key diagnostics available."⟩ :=
  ⟨c3_state_amended.1 ⟨none, none⟩ (.httpException 400) (.ok "s") "u",
   c3_state_amended.2 ⟨none, none⟩ noCategoryReport (.ok "s") "u"
     (analyze_website ⟨none, none⟩ (.ok noCategoryReport) (.ok "s") "u").1
     ⟨0, defaultMetrics, "s"⟩ rfl,
   rfl⟩

/-- C4 counterexample: a report with a lighthouse result but no
performance category yields the four-key digest (score absent), which is
truthy, so the formatter renders the full layout — not the fixed
fallback string. -/
theorem c4_counterexample :
    jGetD (jGetD (jGetD noCategoryReport "lighthouseResult" (.d []))
      "categories" (.d [])) "performance" .null = .null ∧
    extract_info_for_llm noCategoryReport =
      .ok (some ⟨none, [], [], none, none⟩) ∧
    format_for_llm (some ⟨none, [], [], none, none⟩) "example.com" =
      .ok ("--- Performance Summary Report for URL: example.com ---\n\n--- Core Metrics ---\n\n--- Top Opportunities for Improvement ---\nNo significant opportunities were identified.\n\n--- Key Diagnostics ---\nNo key diagnostics available.") ∧
    ("--- Performance Summary Report for URL: example.com ---\n\n--- Core Metrics ---\n\n--- Top Opportunities for Improvement ---\nNo significant opportunities were identified.\n\n--- Key Diagnostics ---\nNo key diagnostics available."
      ≠ "No performance data could be extracted.") := by
  refine ⟨rfl, rfl, rfl, ?_⟩
  decide

/-- C4 (amended): for every dictionary report whose lighthouseResult is
absent or falsy, the extractor returns the empty digest — in particular
the overall score is absent — and the formatter maps the empty digest to
exactly the fixed fallback string, for every url argument. -/
theorem c4_empty_digest (kvs : List (String × J)) (url : String)
    (h : pyTruthy (dictGetD kvs "lighthouseResult" (.d [])) = false) :
    extract_info_for_llm (.d kvs) = .ok none ∧
    format_for_llm none url = .ok "No performance data could be extracted." := by
  constructor
  · simp only [extract_info_for_llm]
    rw [if_neg (by simp [h])]
  · rfl

/-- C4 witness: the amended theorem applied to the empty report and a
concrete url. -/
theorem c4_empty_digest_witness :
    pyTruthy (dictGetD [] "lighthouseResult" (.d [])) = false ∧
    (extract_info_for_llm (.d []) = .ok none ∧
     format_for_llm none "https://x" =
       .ok "No performance data could be extracted.") :=
  ⟨rfl, c4_empty_digest [] "https://x" rfl⟩

/-- C5: whenever extraction succeeds with a digest, its opportunities are
exactly the audits — enumerated in report order — whose `details.type`
is `"opportunity"` and whose `overallSavingsMs` is positive or whose
`details.items` is non-empty (`specQualifies`), each rendered by
`specOpportunity`; audits failing the test contribute nothing. -/
theorem c5_opportunities (data : J) (info : ExtractedInfo)
    (h : extract_info_for_llm data = .ok (some info)) :
    info.opportunities = oppsSpec (auditsAssoc data) := by
  obtain ⟨kvs, lrkvs, akvs, rfl, hlr, hau, hopps, _⟩ := extract_ok_inv h
  have haa : auditsAssoc (.d kvs) = akvs := by
    unfold auditsAssoc
    rw [jGetD_dict, hlr, jGetD_dict, hau]
  rw [haa]
  exact (oppsPart_ok hopps).symm

/-- C5 witness: on a report with a zero-savings empty-items opportunity
audit and an `overallSavingsMs = 1` audit, the former is excluded and
the latter included, matching the theorem's spec-side list. -/
theorem c5_opportunities_witness :
    extract_info_for_llm savingsReport =
      .ok (some ⟨none, [], [⟨.s "T", .null, .s "1 ms", []⟩], none, none⟩) ∧
    (⟨none, [], [⟨.s "T", .null, .s "1 ms", []⟩], none, none⟩ :
        ExtractedInfo).opportunities = oppsSpec (auditsAssoc savingsReport) ∧
    oppsSpec (auditsAssoc savingsReport) = [⟨.s "T", .null, .s "1 ms", []⟩] ∧
    specQualifies (jGetD (.d (auditsAssoc savingsReport)) "zero-opp" .null)
      = false ∧
    specQualifies (jGetD (.d (auditsAssoc savingsReport)) "one-opp" .null)
      = true :=
  ⟨rfl, c5_opportunities savingsReport ⟨none, [], [⟨.s "T", .null, .s "1 ms", []⟩], none, none⟩ rfl,
   rfl, rfl, rfl⟩

/-- C6 counterexample: the claim "never throws" is false — a report whose
`lighthouseResult` value is the number 7 (an object report lacking every
requested metric audit) makes `extract_key_metrics` raise an attribute
error. -/
theorem c6_counterexample :
    isDictJ (.d [("lighthouseResult", J.i 7)]) = true ∧
    extract_key_metrics (.d [("lighthouseResult", J.i 7)]) =
      .error .attributeError :=
  ⟨rfl, rfl⟩

/-- C6 (amended): for every report whose lighthouse/audits path and
looked-up metric audits are well-shaped dicts with string-or-absent
title and displayValue, `extract_key_metrics` returns exactly the six
spec-side metrics in the fixed id order, and every absent audit yields
value "N/A" with the humanized id as title. -/
theorem c6_key_metrics (data : J) (h : keyMetricsWF data = true) :
    extract_key_metrics data =
      .ok (metrics_to_extract.map (specMetric (auditsAssoc data))) ∧
    (metrics_to_extract.map (specMetric (auditsAssoc data))).length = 6 ∧
    (∀ mid, dictGet (auditsAssoc data) mid = none →
      specMetric (auditsAssoc data) mid = ⟨humanizeId mid, "N/A"⟩) := by
  unfold keyMetricsWF at h
  split at h
  · rename_i kvs
    split at h
    · rename_i lr hlr
      split at h
      · rename_i au hau
        have haa : auditsAssoc (.d kvs) = au := by
          unfold auditsAssoc
          rw [jGetD_dict, hlr, jGetD_dict, hau]
        rw [haa]
        refine ⟨?_, by simp [metrics_to_extract], ?_⟩
        · unfold extract_key_metrics
          rw [pyGet_dict, ok_bind, hlr, pyGet_dict, ok_bind, hau]
          exact keyMetricsLoop_ok metrics_to_extract
            (fun mid _ => by
              rw [List.all_eq_true] at h
              exact h mid (by assumption))
        · intro mid hm
          unfold specMetric
          rw [hm]
      · simp at h
    · simp at h
  · simp at h

/-- C6 witness: spec §8 scenario A — a report carrying only the
first-contentful-paint audit yields that audit's pair followed by the
five defaults, six entries in the fixed order. -/
theorem c6_key_metrics_witness :
    keyMetricsWF scenarioAReport = true ∧
    extract_key_metrics scenarioAReport =
      .ok (metrics_to_extract.map (specMetric (auditsAssoc scenarioAReport))) ∧
    metrics_to_extract.map (specMetric (auditsAssoc scenarioAReport)) =
      ⟨"First Contentful Paint", "1.2 s"⟩ :: defaultMetrics.tail :=
  ⟨rfl, (c6_key_metrics scenarioAReport rfl).1, rfl⟩

/-- C7: for every chat request with at least one turn that reaches the
model, the query is the content of the last turn and the history passed
to the model is exactly the remaining turns, converted in order with
user turns as human messages and assistant turns as AI messages. -/
theorem c7_chat_assembly (st : AppState) (history : List ChatMessage)
    (call : LLMCall) (m : ChatMessage)
    (hroles : ∀ t ∈ history, t.role = "user" ∨ t.role = "assistant")
    (hlast : history.getLast? = some m)
    (h : chat_with_llm st history = .ok call) :
    call.query = m.content ∧
    call.history = history.dropLast.map (fun t =>
      if t.role = "user" then LCMessage.human t.content
      else LCMessage.ai t.content) := by
  unfold chat_with_llm at h
  split at h
  · simp only [Except.ok.injEq] at h
    obtain rfl := h.symm
    constructor
    · show (match history.getLast? with
        | some m => m.content
        | none => "") = m.content
      rw [hlast]
    · exact convertHistory_map
        (fun t ht => hroles t (List.dropLast_subset history ht))
  · simp at h

/-- C7 witness: the theorem applied to a two-turn conversation — the
model receives exactly one converted human message ("hi") as history and
the last turn's content as query. -/
theorem c7_chat_assembly_witness :
    chat_with_llm ⟨none, some "digest"⟩
      [⟨"user", "hi"⟩, ⟨"user", "what next"⟩] =
      .ok ⟨[.human "hi"], "what next", "digest"⟩ ∧
    ((⟨[.human "hi"], "what next", "digest"⟩ : LLMCall).query = "what next" ∧
     (⟨[.human "hi"], "what next", "digest"⟩ : LLMCall).history =
       ([⟨"user", "hi"⟩, ⟨"user", "what next"⟩] :
          List ChatMessage).dropLast.map (fun t =>
            if t.role = "user" then LCMessage.human t.content
            else LCMessage.ai t.content)) :=
  ⟨rfl,
   c7_chat_assembly ⟨none, some "digest"⟩
     [⟨"user", "hi"⟩, ⟨"user", "what next"⟩]
     ⟨[.human "hi"], "what next", "digest"⟩ ⟨"user", "what next"⟩
     (by
       intro t ht
       simp only [List.mem_cons, List.not_mem_nil, or_false] at ht
       rcases ht with rfl | rfl
       · exact Or.inl rfl
       · exact Or.inl rfl)
     rfl rfl⟩

/-- C8: a chat request issued while Session State holds no digest text
fails with HTTP status 400 (a client-usage precondition error); the
error return means no `LLMCall` record is ever produced, i.e. no call is
issued to the Language Model Provider. -/
theorem c8_chat_precondition (st : AppState) (history : List ChatMessage)
    (h : st.llm_summary = none) :
    chat_with_llm st history = .error (.httpException 400) := by
  unfold chat_with_llm
  rw [h]
  rfl

/-- C8 witness: the theorem applied to the initial empty state. -/
theorem c8_chat_precondition_witness :
    (⟨none, none⟩ : AppState).llm_summary = none ∧
    chat_with_llm ⟨none, none⟩ [⟨"user", "hi"⟩] =
      .error (.httpException 400) :=
  ⟨rfl, c8_chat_precondition ⟨none, none⟩ [⟨"user", "hi"⟩] rfl⟩

/-- A rendered resource-summary line is never the empty string (it starts
with two spaces and a dash). -/
theorem specRsLine_ne_nil (item : J) : (specRsLine item).data ≠ [] := by
  unfold specRsLine
  simp [str_data_append]

/-- Reading off the Boolean no-newline check. -/
theorem noNlStr_spec {x : String} (h : noNlStr x = true) : '\n' ∉ x.data := by
  unfold noNlStr at h
  rw [List.all_eq_true] at h
  intro hmem
  have h2 := h '\n' hmem
  simp at h2

/-- C9 counterexample: an allowed item whose label embeds a newline makes
the diagnostic two lines long while only one item is allowed, so "line
count equals allowed-item count" fails as stated. -/
theorem c9_counterexample :
    rsItemsView newlineLabelReport =
      some [.d [("resourceType", .s "total"), ("label", .s "a\nb")]] ∧
    extract_info_for_llm newlineLabelReport =
      .ok (some ⟨none, [], [], none, some "  - a\nb: None requests, 0 KB"⟩) ∧
    lineCount "  - a\nb: None requests, 0 KB" = 2 ∧
    List.countP specAllowed
      [J.d [("resourceType", .s "total"), ("label", .s "a\nb")]] = 1 :=
  ⟨rfl, rfl, rfl, rfl⟩

/-- C9 (amended): for every report whose resource-summary audit carries a
`details.items` list and on which extraction succeeds, provided no
allowed item's rendered line embeds a newline, the number of lines of
the resource-summary diagnostic (zero when the diagnostic is absent)
equals the number of items whose resourceType is in
{total, script, image, font, third-party}; other items contribute no
line. -/
theorem c9_resource_lines (data : J) (info : ExtractedInfo) (items : List J)
    (h : extract_info_for_llm data = .ok (some info))
    (hv : rsItemsView data = some items)
    (hnl : ∀ item ∈ items, specAllowed item = true →
      noNlStr (specRsLine item) = true) :
    lineCount ((info.resource_summary).getD "") = items.countP specAllowed := by
  obtain ⟨kvs, lrkvs, akvs, rfl, hlr, hau, _, hrs⟩ := extract_ok_inv h
  have haa : auditsAssoc (.d kvs) = akvs := by
    unfold auditsAssoc
    rw [jGetD_dict, hlr, jGetD_dict, hau]
  unfold rsItemsView at hv
  rw [haa] at hv
  dsimp only at hv
  rw [jGetD_dict] at hv
  split at hv
  · rename_i its heq
    simp only [Option.some.injEq] at hv
    subst hv
    have hres := rsPart_items_ok heq hrs
    cases hemp : its.isEmpty with
    | true =>
        rw [List.isEmpty_iff] at hemp
        subst hemp
        simp only [List.isEmpty_nil, if_true] at hres
        rw [hres]
        rfl
    | false =>
        rw [hemp] at hres
        simp only [Bool.false_eq_true, if_false] at hres
        rw [hres]
        show lineCount (joinNl ((its.filter specAllowed).map specRsLine)) = _
        have hcond : ∀ e ∈ (its.filter specAllowed).map specRsLine,
            e.data ≠ [] ∧ '\n' ∉ e.data := by
          intro e he
          rw [List.mem_map] at he
          obtain ⟨item, hitem, rfl⟩ := he
          rw [List.mem_filter] at hitem
          exact ⟨specRsLine_ne_nil item,
            noNlStr_spec (hnl item hitem.1 hitem.2)⟩
        rw [lineCount_joinNl hcond]
        simp [List.countP_eq_length_filter]
  · simp at hv

/-- C9 witness: the amended theorem at a report with two allowed items
(newline-free rendered lines) and one disallowed item — two allowed
items, two lines. -/
theorem c9_resource_lines_witness :
    extract_info_for_llm rsWitnessReport =
      .ok (some ⟨none, [], [], none,
        some "  - Total: 3 requests, 2 KB\n  - None: None requests, 0 KB"⟩) ∧
    rsItemsView rsWitnessReport = some rsWitnessItems ∧
    lineCount "  - Total: 3 requests, 2 KB\n  - None: None requests, 0 KB" = 2 ∧
    List.countP specAllowed rsWitnessItems = 2 ∧
    lineCount ((some "  - Total: 3 requests, 2 KB\n  - None: None requests, 0 KB").getD "")
      = List.countP specAllowed rsWitnessItems :=
  ⟨rfl, rfl, rfl, rfl,
   c9_resource_lines rsWitnessReport
     ⟨none, [], [], none,
       some "  - Total: 3 requests, 2 KB\n  - None: None requests, 0 KB"⟩
     rsWitnessItems rfl rfl (by decide)⟩

/-- C10: whenever the performance category or its score is structurally
absent, the frontend score expression evaluates to the integer 0
(default 0, times 100, truncated), and every successful analyze on such
a report returns `performance_score = 0`. -/
theorem c10_default_score (report : J) (h : mainScoreDefaulted report = true) :
    mainScore report = .ok 0 ∧
    (∀ (st : AppState) (llm : Except PyErr String) (url : String)
      (st' : AppState) (resp : AnalysisResponse),
      analyze_website st (.ok report) llm url = (st', .ok resp) →
      resp.performance_score = 0) := by
  have hraw := mainScoreRaw_defaulted h
  have hms : mainScore report = .ok 0 := by
    unfold mainScore
    rw [hraw]
    rfl
  refine ⟨hms, ?_⟩
  intro st llm url st' resp ha
  have h2 := (analyze_ok_inv ha).2
  rw [hms] at h2
  injection h2 with h3
  exact h3.symm

/-- C10 witness: the theorem applied to a report with no categories tree,
and a concrete successful analyze returning score 0. -/
theorem c10_default_score_witness :
    mainScoreDefaulted noCategoryReport = true ∧
    mainScore noCategoryReport = .ok 0 ∧
    (⟨0, defaultMetrics, "s"⟩ : AnalysisResponse).performance_score = 0 :=
  ⟨rfl, (c10_default_score noCategoryReport rfl).1,
   (c10_default_score noCategoryReport rfl).2 ⟨none, none⟩ (.ok "s") "u"
     (analyze_website ⟨none, none⟩ (.ok noCategoryReport) (.ok "s") "u").1
     ⟨0, defaultMetrics, "s"⟩ rfl⟩

end FrontendX
